import Mathlib

/-!
Shallow embedding of the "Ralph Agent" repository's core components, used to
check the natural-language specification against the code.

Embedded modules:
* `Ralph`     — `src/ralph/lib/cline_runner.py` (the current Cline subprocess
                supervisor: result building, prompt validation, command-line
                construction, isolated state-directory setup, output readers,
                stuck/timeout watchdog, usage probe).
* `GhScripts` — `src/.github/scripts/lib/cline_runner.py` (the older copy of
                the same module kept under `.github/scripts`; it differs from
                the `ralph` copy in state-directory setup and command-line
                construction).
* `GitOps`    — `src/.github/scripts/lib/git_ops.py` (`create_branch`).
* `Screenshot`— `src/.github/scripts/lib/screenshot.py` (`take_screenshot`
                validation/recovery logic).
* `SelfReview`— `src/ralph/self_review.py` (`parse_verdict`).

Python strings are modeled as Lean `String`/`List Char`; `lower`/`strip` are
modeled for the ASCII range (every constant the code searches for is ASCII).
Machine integers do not occur (exit codes are arbitrary-precision `Int` in
CPython as well). Fallible code returns `Except`/`Option`.
-/

namespace PyStr

/-- ASCII whitespace recognized by Python `str.strip()` / `str.isspace()`:
space, tab, newline, carriage return, vertical tab, form feed. -/
def pyIsSpace (c : Char) : Bool :=
  (c == ' ') || (c == '\t') || (c == '\n') || (c == '\r') ||
  (c == '\x0b') || (c == '\x0c')

/-- Python `s.strip()` (ASCII whitespace): drop leading and trailing whitespace. -/
def pyStrip (s : String) : String :=
  String.mk (((s.toList.dropWhile pyIsSpace).reverse.dropWhile pyIsSpace).reverse)

/-- Python `s.lower()` restricted to ASCII case mapping (`Char.toLower`). -/
def pyLower (s : String) : String :=
  String.mk (s.toList.map Char.toLower)

/-- Substring containment on character lists: some tail of `hay` starts with
`needle`.  Models Python's `needle in hay` for strings. -/
def isSubOf (needle hay : List Char) : Bool :=
  hay.tails.any (fun t => needle.isPrefixOf t)

/-- Python `needle in hay` for strings. -/
def pyIn (needle hay : String) : Bool :=
  isSubOf needle.toList hay.toList

/-- Python `s.rstrip("\n")`: drop trailing newline characters. -/
def pyRstripNl (s : String) : String :=
  String.mk ((s.toList.reverse.dropWhile (fun c => c == '\n')).reverse)

/-- Python `"\n".join(lines)`. -/
def joinLines (lines : List String) : String :=
  String.intercalate "\n" lines

theorem dropWhile_eq_nil_of_all {p : Char → Bool} :
    ∀ {l : List Char}, l.all p = true → l.dropWhile p = [] := by
  intro l h
  induction l with
  | nil => rfl
  | cons c cs ih =>
    simp only [List.all_cons, Bool.and_eq_true] at h
    simp [List.dropWhile, h.1, ih h.2]

/-- A string made only of Python whitespace strips to the empty string. -/
theorem pyStrip_eq_empty_of_all_space {s : String}
    (h : s.toList.all pyIsSpace = true) : pyStrip s = "" := by
  unfold pyStrip
  rw [dropWhile_eq_nil_of_all h]
  rfl

end PyStr

namespace Ralph

open PyStr

/-- `ClineResult` (src/ralph/lib/cline_runner.py lines 72-83): frozen dataclass
holding captured stdout, captured stderr, the process exit code, and an
optional per-run cost.  The cost is a real-number delta; we model it with `Rat`
since it is only carried, never computed on here. -/
structure ClineResult where
  stdout : String
  stderr : String
  exit_code : Int
  cost_usd : Option Rat := none
deriving DecidableEq, Repr

/-- `ClineResult.success` (lines 81-83): `self.exit_code == 0`. -/
def ClineResult.success (r : ClineResult) : Bool :=
  r.exit_code == 0

/-- `ClineError` (lines 60-69): typed error carrying message, captured stdout,
captured stderr, and the exit code (default -1). -/
structure ClineError where
  message : String
  stdout : String := ""
  stderr : String := ""
  exit_code : Int := -1
deriving DecidableEq, Repr

/-- Tail of `ClineRunner.run` (lines 418-439): after the process exited
normally with the given captured output and return code, build the
`ClineResult`; if it is not a success, raise `ClineError` with the message
`"Cline exited with code {returncode}"` carrying stdout, stderr and the exit
code, else return the result. -/
def finishRun (result_stdout result_stderr : String) (returncode : Int)
    (run_cost : Option Rat) : Except ClineError ClineResult :=
  let cline_result : ClineResult :=
    { stdout := result_stdout, stderr := result_stderr,
      exit_code := returncode, cost_usd := run_cost }
  if cline_result.success then
    Except.ok cline_result
  else
    Except.error
      { message := "Cline exited with code " ++ toString returncode,
        stdout := result_stdout, stderr := result_stderr,
        exit_code := returncode }

/-- The fields of `ClineRunner` relevant to command construction and state
setup (`__init__`, lines 150-184). -/
structure Runner where
  cline_dir : String
  model : String
  plan_model : String
deriving DecidableEq, Repr

/-- `ClineRunner.__init__` (lines 170-174): `self.plan_model = plan_model or
model` — Python `or` falls back when `plan_model` is `None` or the empty
string. -/
def mkRunner (cline_dir model : String) (plan_model : Option String) : Runner :=
  { cline_dir := cline_dir, model := model,
    plan_model :=
      match plan_model with
      | none => model
      | some p => if p = "" then model else p }

/-- Command line built by `ClineRunner.run` (lines 252-269): base flags, then
`-p` exactly when `plan_model != model`, then `-c cwd` when a working
directory is given, then the prompt. -/
def buildCmd (r : Runner) (prompt : String) (timeout : Int)
    (cwd : Option String) : List String :=
  ["cline", "-y", "--timeout", toString timeout]
    ++ (if r.plan_model ≠ r.model then ["-p"] else [])
    ++ (match cwd with | some c => ["-c", c] | none => [])
    ++ [prompt]

/-- Observable side effects of the launch phase of `ClineRunner.run`. -/
inductive LaunchEffect where
  | processStart (cmd : List String) (cline_dir : String)
deriving DecidableEq, Repr

/-- Outcome of the launch phase of `ClineRunner.run`. -/
inductive LaunchOutcome where
  | valueError (message : String)
  | started (cmd : List String)
deriving DecidableEq, Repr

/-- Launch phase of `ClineRunner.run` (lines 249-315): the prompt check
`if not prompt or not prompt.strip()` raises `ValueError` before anything
else happens; otherwise the command line is built and the subprocess is
started.  The effect trace records any process start. -/
def runLaunch (r : Runner) (prompt : String) (timeout : Int)
    (cwd : Option String) : List LaunchEffect × LaunchOutcome :=
  if prompt = "" ∨ pyStrip prompt = "" then
    ([], LaunchOutcome.valueError "Cline prompt cannot be empty.")
  else
    let cmd := buildCmd r prompt timeout cwd
    ([LaunchEffect.processStart cmd r.cline_dir], LaunchOutcome.started cmd)

end Ralph

/-- A JSON value as written by the setup code (only the shapes that occur). -/
inductive JsonVal where
  | str (s : String)
  | bool (b : Bool)
  | obj (fields : List (String × JsonVal))

/-- A file system restricted to the files the setup code touches: an
association from absolute path to (JSON) content.  `fsWrite` overwrites any
existing entry; `fsRead` returns the most recent write. -/
def FS : Type := List (String × JsonVal)

/-- Write (create or overwrite) a file. -/
def fsWrite (fs : FS) (path : String) (content : JsonVal) : FS :=
  (path, content) :: (fs.filter (fun e => e.1 ≠ path))

/-- Read a file, if present. -/
def fsRead (fs : FS) (path : String) : Option JsonVal :=
  (fs.find? (fun e => e.1 == path)).map (fun e => e.2)

/-- Does the file exist? -/
def fsExists (fs : FS) (path : String) : Bool :=
  (fs.find? (fun e => e.1 == path)).isSome

namespace Ralph

/-- The `globalState.json` content written by `_setup_cline_dir`
(src/ralph/lib/cline_runner.py lines 212-218): OpenRouter provider with
provider-specific model-id keys. -/
def globalStateJson (model plan_model : String) : JsonVal :=
  JsonVal.obj
    [("welcomeViewCompleted", JsonVal.bool true),
     ("actModeApiProvider", JsonVal.str "openrouter"),
     ("actModeOpenRouterModelId", JsonVal.str model),
     ("planModeApiProvider", JsonVal.str "openrouter"),
     ("planModeOpenRouterModelId", JsonVal.str plan_model)]

/-- `ClineRunner._setup_cline_dir` (src/ralph/lib/cline_runner.py lines
186-227), acting on the file-system model:

* if an MCP-settings source path was supplied and that file exists, copy it to
  `<cline_dir>/data/settings/cline_mcp_settings.json`, always overwriting;
* write `<cline_dir>/data/globalState.json` with the current model ids,
  always overwriting;
* if `OPENROUTER_API_KEY` is present and non-empty, write
  `<cline_dir>/data/secrets.json`, always overwriting. -/
def setupClineDir (fs : FS) (r : Runner) (mcp_settings_path : Option String)
    (api_key : Option String) : FS :=
  let data_dir := r.cline_dir ++ "/data"
  let fs1 :=
    match mcp_settings_path with
    | some src =>
        if fsExists fs src then
          match fsRead fs src with
          | some content =>
              fsWrite fs (data_dir ++ "/settings/cline_mcp_settings.json") content
          | none => fs
        else fs
    | none => fs
  let fs2 := fsWrite fs1 (data_dir ++ "/globalState.json")
      (globalStateJson r.model r.plan_model)
  match api_key with
  | some k =>
      if k ≠ "" then
        fsWrite fs2 (data_dir ++ "/secrets.json")
          (JsonVal.obj [("openRouterApiKey", JsonVal.str k)])
      else fs2
  | none => fs2

/-- `ClineRunner.__init__` + `_setup_cline_dir` as one construction step:
build the runner fields, then set up the isolated directory. -/
def constructRunner (fs : FS) (cline_dir model : String)
    (plan_model : Option String) (mcp_settings_path : Option String)
    (api_key : Option String) : Runner × FS :=
  let r := mkRunner cline_dir model plan_model
  (r, setupClineDir fs r mcp_settings_path api_key)

end Ralph

namespace GhScripts

open PyStr

/-- The fields of the `.github/scripts` copy's `ClineRunner` relevant here
(src/.github/scripts/lib/cline_runner.py lines 75-99; the `__init__` is
identical to the `ralph` copy, including `plan_model = plan_model or model`). -/
def mkRunner (cline_dir model : String) (plan_model : Option String) :
    Ralph.Runner :=
  Ralph.mkRunner cline_dir model plan_model

/-- `globalState.json` content written by the `.github/scripts` copy's
`_setup_cline_dir` (lines 128-134): it uses the generic
`actModeApiModelId` / `planModeApiModelId` keys, not the OpenRouter-specific
ones. -/
def globalStateJson (model plan_model : String) : JsonVal :=
  JsonVal.obj
    [("welcomeViewCompleted", JsonVal.bool true),
     ("actModeApiProvider", JsonVal.str "openrouter"),
     ("actModeApiModelId", JsonVal.str model),
     ("planModeApiProvider", JsonVal.str "openrouter"),
     ("planModeApiModelId", JsonVal.str plan_model)]

/-- `ClineRunner._setup_cline_dir` of the `.github/scripts` copy (lines
111-143):

* if an MCP-settings source was supplied and exists, copy it to
  `<cline_dir>/cline_mcp_settings.json` — but only `if not dest.exists()`;
* write `<cline_dir>/data/globalState.json` — but only
  `if not global_state.exists()`;
* write `<cline_dir>/data/secrets.json` only inside that same branch
  (i.e. only when `globalState.json` was just created) and only when the
  API key is non-empty. -/
def setupClineDir (fs : FS) (r : Ralph.Runner) (mcp_settings_path : Option String)
    (api_key : Option String) : FS :=
  let data_dir := r.cline_dir ++ "/data"
  let fs1 :=
    match mcp_settings_path with
    | some src =>
        let dest := r.cline_dir ++ "/cline_mcp_settings.json"
        if fsExists fs src ∧ ¬ fsExists fs dest then
          match fsRead fs src with
          | some content => fsWrite fs dest content
          | none => fs
        else fs
    | none => fs
  let global_state := data_dir ++ "/globalState.json"
  if fsExists fs1 global_state then fs1
  else
    let fs2 := fsWrite fs1 global_state (globalStateJson r.model r.plan_model)
    match api_key with
    | some k =>
        if k ≠ "" then
          fsWrite fs2 (data_dir ++ "/secrets.json")
            (JsonVal.obj [("openRouterApiKey", JsonVal.str k)])
        else fs2
    | none => fs2

/-- `__init__` + `_setup_cline_dir` of the `.github/scripts` copy as one
construction step. -/
def constructRunner (fs : FS) (cline_dir model : String)
    (plan_model : Option String) (mcp_settings_path : Option String)
    (api_key : Option String) : Ralph.Runner × FS :=
  let r := mkRunner cline_dir model plan_model
  (r, setupClineDir fs r mcp_settings_path api_key)

/-- Command line built by the `.github/scripts` copy's `ClineRunner.run`
(lines 168-178): it always passes `--model` and never adds a `-p` flag. -/
def buildCmd (r : Ralph.Runner) (prompt : String) (timeout : Int)
    (cwd : Option String) : List String :=
  ["cline", "-y", "--model", r.model, "--timeout", toString timeout]
    ++ (match cwd with | some c => ["-c", c] | none => [])
    ++ [prompt]

end GhScripts

namespace Ralph

open PyStr

/-- `_STUCK_PATTERNS` (src/ralph/lib/cline_runner.py lines 24-32): substrings
indicating Cline is waiting for interactive input. -/
def stuckPatterns : List String :=
  ["Do you want to proceed",
   "Press Enter",
   "(Y/n)",
   "(y/N)",
   "Approve?",
   "waiting for approval",
   "Please run \x27cline auth\x27"]

/-- The pattern scan inside `_reader` (lines 298-305): the first pattern in
`_STUCK_PATTERNS` order with `pattern.lower() in line.lower()`. -/
def checkStuckLine (line : String) : Option String :=
  stuckPatterns.findSome? (fun pattern =>
    if pyIn (pyLower pattern) (pyLower line) then some pattern else none)

/-- The reason string recorded under the lock on a stuck match (lines
301-304). -/
def stuckReasonMsg (pattern line : String) : String :=
  "Detected stuck pattern: \x27" ++ pattern ++ "\x27 in: " ++ line

/-- `_reader` (lines 286-305) over the whole sequence of raw lines a stream
produces: each raw line is `rstrip("\n")`-ed and appended to the buffer; on
the first line matching a stuck pattern, the reason is recorded and the
reader returns (no further lines are consumed).  Result: the buffer contents
and the recorded stuck reason, if any. -/
def readerRun : List String → List String × Option String
  | [] => ([], none)
  | raw :: rest =>
    let line := pyRstripNl raw
    match checkStuckLine line with
    | some pattern => ([line], some (stuckReasonMsg pattern line))
    | none =>
        let r := readerRun rest
        (line :: r.1, r.2)

/-- One decision of the watchdog loop of `ClineRunner.run` (lines 334-387):
loop condition `proc.poll() is None`, then the hard-timeout check
`now >= deadline`, then the stuck check, otherwise sleep one second. -/
inductive WatchdogAction where
  | assembleResult
  | killTimeout
  | killStuck (reason : String)
  | sleepPoll
deriving DecidableEq, Repr

/-- The watchdog's per-iteration decision (lines 334-387), in source order:
process exited → assemble the result; `now >= deadline` → kill on timeout;
stuck reason set → kill on stuck; else sleep and poll again. -/
def watchdogStep (procExited : Bool) (now deadline : Nat)
    (stuckReason : Option String) : WatchdogAction :=
  if procExited then WatchdogAction.assembleResult
  else if now ≥ deadline then WatchdogAction.killTimeout
  else
    match stuckReason with
    | some r => WatchdogAction.killStuck r
    | none => WatchdogAction.sleepPoll

/-- Final state of the watchdog loop. -/
inductive LoopExit where
  | exited (t : Nat)
  | timeout (t : Nat)
  | stuck (t : Nat) (reason : String)
deriving DecidableEq, Repr

/-- The watchdog loop (lines 332-387) with a discrete clock: the loop polls
once per second (`time.sleep(1)`), so iteration `t` sees monotonic time `t`
seconds after start; `deadline = timeout + 30` in the same clock.
`procExited t` / `stuckReason t` give the process and shared-flag state at
poll `t`.  `fuel` bounds the recursion; `fuel > deadline - t` is enough for
every run that ends in a timeout, since the loop cannot pass the deadline. -/
def watchdogLoop (procExited : Nat → Bool) (stuckReason : Nat → Option String)
    (deadline : Nat) : Nat → Nat → Option LoopExit
  | _, 0 => none
  | t, fuel + 1 =>
    match watchdogStep (procExited t) t deadline (stuckReason t) with
    | WatchdogAction.assembleResult => some (LoopExit.exited t)
    | WatchdogAction.killTimeout => some (LoopExit.timeout t)
    | WatchdogAction.killStuck r => some (LoopExit.stuck t r)
    | WatchdogAction.sleepPoll => watchdogLoop procExited stuckReason deadline (t + 1) fuel

/-- Effects the watchdog performs when it decides to kill. -/
inductive ProcEffect where
  | kill
  | wait
deriving DecidableEq, Repr

/-- Reaction to a set stuck flag (lines 346-355): `proc.kill()`, `proc.wait()`,
then `raise ClineError("Cline appears stuck: " + reason, stdout, stderr, -1)`. -/
def onStuck (reason : String) (stdout_lines stderr_lines : List String) :
    List ProcEffect × ClineError :=
  ([ProcEffect.kill, ProcEffect.wait],
   { message := "Cline appears stuck: " ++ reason,
     stdout := joinLines stdout_lines,
     stderr := joinLines stderr_lines,
     exit_code := -1 })

/-- Reaction to the hard timeout (lines 338-341 raise
`subprocess.TimeoutExpired` after `kill`/`wait`; the handler at lines 404-411
turns it into `ClineError("Cline timed out after {timeout} seconds", stdout,
stderr, -1)`). -/
def onTimeout (timeout : Nat) (stdout_lines stderr_lines : List String) :
    List ProcEffect × ClineError :=
  ([ProcEffect.kill, ProcEffect.wait],
   { message := "Cline timed out after " ++ toString timeout ++ " seconds",
     stdout := joinLines stdout_lines,
     stderr := joinLines stderr_lines,
     exit_code := -1 })

end Ralph

/-- A Python object as produced by `json.loads` (JSON `null` is Python
`None`). -/
inductive PyVal where
  | none
  | bool (b : Bool)
  | num (q : Rat)
  | str (s : String)
  | dict (fields : List (String × PyVal))
  | list (elems : List PyVal)

/-- Exceptions that the body of `get_openrouter_usage` can raise. -/
inductive PyExc where
  | urlError
  | jsonDecodeError
  | attributeError
deriving DecidableEq, Repr

/-- Python `d.get(key, default)`: on a dict, look the key up (returning the
default when absent); on any other object, `.get` raises `AttributeError`. -/
def PyVal.get (v : PyVal) (key : String) (default : PyVal) :
    Except PyExc PyVal :=
  match v with
  | PyVal.dict fields =>
      Except.ok (((fields.find? (fun p => p.1 == key)).map Prod.snd).getD default)
  | _ => Except.error PyExc.attributeError

namespace Ralph

/-- The body of the `try` block of `get_openrouter_usage`
(src/ralph/lib/cline_runner.py lines 43-50) given the outcome of the network
request + `json.loads` (an oracle `net`, since it is I/O): on a parsed
response `data`, evaluate `data.get("data", {}).get("usage")`. -/
def usageTryBody (net : Except PyExc PyVal) : Except PyExc PyVal := do
  let data ← net
  let inner ← data.get "data" (PyVal.dict [])
  inner.get "usage" PyVal.none

/-- `get_openrouter_usage` (lines 35-53): if `OPENROUTER_API_KEY` is missing
or empty, return `None`; otherwise run the request/parse body and return its
value, turning any raised exception into `None` (the `except Exception`
clause).  The result is a plain value — this function has no error outcome. -/
def get_openrouter_usage (api_key : Option String)
    (net : Except PyExc PyVal) : PyVal :=
  match api_key with
  | Option.none => PyVal.none
  | some k =>
      if k = "" then PyVal.none
      else
        match usageTryBody net with
        | Except.ok v => v
        | Except.error _ => PyVal.none

end Ralph

namespace GitOps

open PyStr

/-- `GitError` (src/.github/scripts/lib/git_ops.py lines 14-20). -/
structure GitError where
  message : String
  stderr : String := ""
  exit_code : Int := -1
deriving DecidableEq, Repr

/-- Errors `create_branch` can raise. -/
inductive CreateBranchError where
  | valueError (message : String)
  | gitError (e : GitError)
deriving DecidableEq, Repr

/-- The versioned candidate name `f"{name}-v{version}"` (line 143). -/
def versionedName (name : String) (version : Nat) : String :=
  name ++ "-v" ++ toString version

/-- The collision loop of `create_branch` (lines 130-145):

    unique_name = name; version = 2; max_attempts = 20
    while version <= max_attempts:
        if remote does not have unique_name: break
        unique_name = f"{name}-v{version}"; version += 1

`remote b` models `bool(git ls-remote --heads origin b` produced output`)`.
`remaining` is the recursion measure `21 - version`, kept alongside `version`
so the definition is structural and computable: the call starts at
`version = 2` with `remaining = 19`, and the loop body runs exactly while
`version ≤ 20`, i.e. while `remaining > 0`.  Returns the final
`(unique_name, version)` pair. -/
def branchLoop (remote : String → Bool) (name : String) :
    Nat → String → Nat → String × Nat
  | 0, unique, version => (unique, version)
  | remaining + 1, unique, version =>
    if remote unique = false then (unique, version)
    else branchLoop remote name remaining (versionedName name version) (version + 1)

/-- `create_branch` (lines 95-158) up to its effects: validate the name,
strip it, run the collision loop, raise `GitError` when the loop exhausted
`max_attempts` (`version > 20`), else create (`git checkout -b`) and return
the chosen name. -/
def create_branch (remote : String → Bool) (name : String) :
    Except CreateBranchError String :=
  if name = "" ∨ pyStrip name = "" then
    Except.error (CreateBranchError.valueError "Branch name cannot be empty.")
  else
    let name := pyStrip name
    let r := branchLoop remote name 19 name 2
    if r.2 > 20 then
      Except.error (CreateBranchError.gitError
        { message := "Could not find unique branch name after 20 attempts. " ++
            "Too many existing branches for issue. Consider cleaning up old branches." })
    else
      Except.ok r.1

end GitOps

namespace Screenshot

/-- One directory entry: file name, size in bytes, and modification time
(an abstract totally ordered stamp; Python compares `st_mtime` floats, only
the ordering matters here). -/
structure FileEntry where
  name : String
  size : Nat
  mtime : Nat
deriving DecidableEq, Repr

/-- `output_path.parent.glob("*.png")`: the entries whose name ends in
`.png` (suffix check spelled on character lists). -/
def isPng (f : FileEntry) : Bool :=
  ".png".toList.isSuffixOf f.name.toList

/-- `sorted(..., key=lambda p: p.stat().st_mtime, reverse=True)`: stable sort
by modification time, newest first (Python's sort is stable and
`reverse=True` keeps the original order of equal keys, which matches a stable
merge sort with the ordering `a.mtime ≥ b.mtime`). -/
def sortByMtimeDesc (l : List FileEntry) : List FileEntry :=
  l.mergeSort (fun a b => decide (a.mtime ≥ b.mtime))

/-- `best.rename(output_path)` on the directory listing: the entry named
`old` now appears under the name `new`; nothing else changes. -/
def renameEntry (dir : List FileEntry) (old new : String) : List FileEntry :=
  dir.map (fun f => if f.name = old then { f with name := new } else f)

/-- The size check at the end of `take_screenshot` (lines 135-141): stat the
file at the expected path; 0 bytes → `None`, else return the expected path. -/
def checkSize (dir : List FileEntry) (expected : String) : Option String :=
  match dir.find? (fun f => f.name = expected) with
  | some f => if f.size = 0 then none else some expected
  | none => none

/-- The validation/recovery tail of `take_screenshot`
(src/.github/scripts/lib/screenshot.py lines 117-141), on the listing of the
expected path's directory, after the agent invocation succeeded:

* if the expected file does not exist: glob `*.png`, sort newest-first; if
  any PNG was saved, rename the newest to the expected path, else return
  `None`;
* then stat the expected path: 0 bytes → `None`, else return the path.

Returns the outcome and the directory listing after any rename. -/
def take_screenshot (dir : List FileEntry) (expected : String) :
    Option String × List FileEntry :=
  if dir.all (fun f => f.name ≠ expected) then
    match sortByMtimeDesc (dir.filter isPng) with
    | [] => (none, dir)
    | best :: _ =>
        let dir2 := renameEntry dir best.name expected
        (checkSize dir2 expected, dir2)
  else
    (checkSize dir expected, dir)

end Screenshot

namespace SelfReview

open PyStr

/-- The characters of the regex class `[*_`>#\-]` in
`re.sub(r"[*_`>#\-]", " ", review_output)` (src/ralph/self_review.py line 76).
The backtick is written by code point (96). -/
def mdNoise : List Char :=
  ['*', '_', Char.ofNat 96, '>', '#', '-']

/-- `re.sub(r"[*_`>#\-]", " ", s)`: replace each markdown-noise character by a
space. -/
def stripMarkdown (s : String) : String :=
  String.mk (s.toList.map (fun c => if c ∈ mdNoise then ' ' else c))

/-- The line-boundary characters of Python `str.splitlines`. -/
def lineBoundary (c : Char) : Bool :=
  (c == '\n') || (c == '\r') || (c == '\x0b') || (c == '\x0c') ||
  (c == '\x1c') || (c == '\x1d') || (c == '\x1e') || (c == '\x85') ||
  (c == '\u2028') || (c == '\u2029')

/-- Python `s.splitlines()` on characters: split at each line boundary
(treating `"\r\n"` as a single boundary); a trailing boundary does not
produce a final empty line. -/
def splitlinesAux : List Char → List Char → List String
  | [], acc => if acc = [] then [] else [String.mk acc.reverse]
  | '\r' :: '\n' :: rest, acc => String.mk acc.reverse :: splitlinesAux rest []
  | c :: rest, acc =>
      if lineBoundary c then String.mk acc.reverse :: splitlinesAux rest []
      else splitlinesAux rest (c :: acc)

/-- Python `s.splitlines()`. -/
def splitlines (s : String) : List String :=
  splitlinesAux s.toList []

/-- Python `l.split(":", 1)[1]` on characters: everything after the first
colon (only used when a colon is present; returns `[]` otherwise). -/
def afterFirstColon : List Char → List Char
  | [] => []
  | c :: rest => if c = ':' then rest else afterFirstColon rest

/-- Python `hay.find(needle)` on characters: index of the first occurrence,
or `none` (Python's `-1`). -/
def findSub (needle : List Char) : List Char → Option Nat
  | [] => if needle = [] then some 0 else none
  | c :: rest =>
      if needle.isPrefixOf (c :: rest) then some 0
      else (findSub needle rest).map (fun i => i + 1)

/-- Python slice `l[a:b]` for natural indices (`Nat` subtraction already
clamps `a` at 0, matching the `max(0, idx - 100)` in the source). -/
def slice (l : List Char) (a b : Nat) : List Char :=
  (l.take b).drop a

/-- The per-line verdict check inside the loop of `parse_verdict`
(src/ralph/self_review.py lines 78-89): on `line.strip().lower()`, when both
`"verdict"` and `":"` occur, look after the first colon; `"needs changes"` or
`"needs_changes"` after the colon, or `"needs changes"` anywhere in the line,
yields `NEEDS CHANGES`; else `"lgtm"` after the colon yields `LGTM`; else the
loop continues with the next line (`none`). -/
def lineVerdictCheck (line : String) : Option String :=
  let ls := pyLower (pyStrip line)
  if pyIn "verdict" ls ∧ pyIn ":" ls then
    let after := pyStrip (String.mk (afterFirstColon ls.toList))
    if pyIn "needs changes" after ∨ pyIn "needs_changes" after ∨
        pyIn "needs changes" ls then
      some "NEEDS CHANGES"
    else if pyIn "lgtm" after then
      some "LGTM"
    else
      none
  else
    none

/-- The looser full-text scan of `parse_verdict` (lines 92-97): on the
lowered stripped text `cl`, when `"needs changes"` or `"needs_changes"`
occurs, find the first `"needs changes"` and report `NEEDS CHANGES` exactly
when `"verdict"` occurs inside `cl[max(0, idx - 100) : idx + 50]`. -/
def fulltextCheck (cl : List Char) : Bool :=
  if isSubOf "needs changes".toList cl ∨ isSubOf "needs_changes".toList cl then
    match findSub "needs changes".toList cl with
    | some idx => isSubOf "verdict".toList (slice cl (idx - 100) (idx + 50))
    | none => false
  else
    false

/-- `parse_verdict` (src/ralph/self_review.py lines 63-101). -/
def parse_verdict (review_output : String) : String :=
  let clean := stripMarkdown review_output
  match (splitlines clean).findSome? lineVerdictCheck with
  | some v => v
  | none =>
      let cl := (pyLower clean).toList
      if fulltextCheck cl then "NEEDS CHANGES" else "LGTM"

end SelfReview

section Theorems

open PyStr

/-- C1: For every invocation of `ClineRunner.run` that completes, exit code 0
yields a normally returned `ClineResult` whose success indicator is true,
and any nonzero (including -1) exit code yields no result but a raised
`ClineError` carrying the captured stdout, the captured stderr, and the exit
code. -/
theorem cline_run_exit_code_contract (out err : String) (code : Int)
    (cost : Option Rat) :
    (code = 0 →
      Ralph.finishRun out err code cost =
        Except.ok { stdout := out, stderr := err, exit_code := code,
                    cost_usd := cost } ∧
      Ralph.ClineResult.success
        { stdout := out, stderr := err, exit_code := code, cost_usd := cost } =
        true) ∧
    (code ≠ 0 →
      Ralph.finishRun out err code cost =
        Except.error
          { message := "Cline exited with code " ++ toString code,
            stdout := out, stderr := err, exit_code := code } ∧
      Ralph.ClineResult.success
        { stdout := out, stderr := err, exit_code := code, cost_usd := cost } =
        false) := by
  constructor
  · intro h
    subst h
    exact ⟨by simp [Ralph.finishRun, Ralph.ClineResult.success], by
      simp [Ralph.ClineResult.success]⟩
  · intro h
    exact ⟨by simp [Ralph.finishRun, Ralph.ClineResult.success, h], by
      simp [Ralph.ClineResult.success, h]⟩

/-- Witness for C1 at exit codes 0 and 2. -/
theorem cline_run_exit_code_contract_witness :
    (Ralph.finishRun "o" "e" 0 none =
        Except.ok { stdout := "o", stderr := "e", exit_code := 0,
                    cost_usd := none } ∧
      Ralph.ClineResult.success
        { stdout := "o", stderr := "e", exit_code := 0, cost_usd := none } =
        true) ∧
    (Ralph.finishRun "o" "e" 2 none =
        Except.error
          { message := "Cline exited with code " ++ toString (2 : Int),
            stdout := "o", stderr := "e", exit_code := 2 } ∧
      Ralph.ClineResult.success
        { stdout := "o", stderr := "e", exit_code := 2, cost_usd := none } =
        false) :=
  ⟨(cline_run_exit_code_contract "o" "e" 0 none).1 rfl,
   (cline_run_exit_code_contract "o" "e" 2 none).2 (by decide)⟩

/-- C2: For every prompt that is empty or whitespace-only, `ClineRunner.run`
raises the input-validation `ValueError` with no side effects: the effect
trace is empty, so no subprocess is started. -/
theorem empty_prompt_rejected_before_launch (r : Ralph.Runner)
    (prompt : String) (timeout : Int) (cwd : Option String)
    (h : prompt.toList.all pyIsSpace = true) :
    Ralph.runLaunch r prompt timeout cwd =
      ([], Ralph.LaunchOutcome.valueError "Cline prompt cannot be empty.") := by
  unfold Ralph.runLaunch
  rw [if_pos (Or.inr (pyStrip_eq_empty_of_all_space h))]

/-- Witness for C2 on the whitespace-only prompt `" \t\n"`. -/
theorem empty_prompt_rejected_before_launch_witness :
    Ralph.runLaunch { cline_dir := "/tmp/c", model := "m", plan_model := "m" }
        " \t\n" 600 none =
      ([], Ralph.LaunchOutcome.valueError "Cline prompt cannot be empty.") :=
  empty_prompt_rejected_before_launch _ _ _ _ (by decide)

/-- C9: `get_openrouter_usage` never raises: it is a total function into
plain values; it returns `None` when the credential is missing or empty,
when the request/parse body raises (network failure or malformed response,
including a non-dict response body), or when the response lacks the usage
field, and it returns the usage value on success. -/
theorem usage_probe_never_raises (api_key : Option String)
    (net : Except PyExc PyVal) :
    (api_key = Option.none ∨ api_key = some "" →
      Ralph.get_openrouter_usage api_key net = PyVal.none) ∧
    (∀ e, net = Except.error e →
      Ralph.get_openrouter_usage api_key net = PyVal.none) ∧
    (∀ k s, api_key = some k → k ≠ "" → net = Except.ok (PyVal.str s) →
      Ralph.get_openrouter_usage api_key net = PyVal.none) ∧
    (∀ k fields gs, api_key = some k → k ≠ "" →
      net = Except.ok (PyVal.dict fields) →
      fields.find? (fun p => p.1 == "data") = some ("data", PyVal.dict gs) →
      Ralph.get_openrouter_usage api_key net =
        ((gs.find? (fun p => p.1 == "usage")).map Prod.snd).getD PyVal.none) := by
  refine ⟨?_, ?_, ?_, ?_⟩
  · rintro (h | h) <;> subst h <;> rfl
  · rintro e h
    subst h
    cases api_key with
    | none => rfl
    | some k =>
      by_cases hk : k = ""
      · subst hk; rfl
      · simp [Ralph.get_openrouter_usage, Ralph.usageTryBody, hk,
          Bind.bind, Except.bind]
  · rintro k s h hk h2
    subst h; subst h2
    simp [Ralph.get_openrouter_usage, Ralph.usageTryBody, hk, PyVal.get,
      Bind.bind, Except.bind]
  · rintro k fields gs h hk h2 hfind
    subst h; subst h2
    simp only [Ralph.get_openrouter_usage, Ralph.usageTryBody, hk,
      if_neg hk, Bind.bind, Except.bind, PyVal.get, hfind, Option.map_some,
      Option.getD_some]
    cases hu : gs.find? (fun p => p.1 == "usage") with
    | none => simp [hu]
    | some p => simp [hu]

/-- Witness for C9: missing key, network failure, non-dict body, and a
successful response with usage 5. -/
theorem usage_probe_never_raises_witness :
    Ralph.get_openrouter_usage Option.none (Except.ok PyVal.none) =
      PyVal.none ∧
    Ralph.get_openrouter_usage (some "sk") (Except.error PyExc.urlError) =
      PyVal.none ∧
    Ralph.get_openrouter_usage (some "sk") (Except.ok (PyVal.str "oops")) =
      PyVal.none ∧
    Ralph.get_openrouter_usage (some "sk")
        (Except.ok (PyVal.dict [("data", PyVal.dict [("usage", PyVal.num 5)])])) =
      PyVal.num 5 :=
  ⟨(usage_probe_never_raises Option.none (Except.ok PyVal.none)).1 (Or.inl rfl),
   (usage_probe_never_raises (some "sk") (Except.error PyExc.urlError)).2.1
     PyExc.urlError rfl,
   (usage_probe_never_raises (some "sk") (Except.ok (PyVal.str "oops"))).2.2.1
     "sk" "oops" rfl (by decide) rfl,
   (usage_probe_never_raises (some "sk")
       (Except.ok (PyVal.dict [("data", PyVal.dict [("usage", PyVal.num 5)])]))).2.2.2
     "sk" [("data", PyVal.dict [("usage", PyVal.num 5)])]
     [("usage", PyVal.num 5)] rfl (by decide) rfl rfl⟩

/-- C5: evaluation at the failing input.  Constructing the
`.github/scripts` copy's runner twice with the same state directory but
primary model ids `model-v1` then `model-v2` leaves `globalState.json`
holding the first (stale) model id, because its `_setup_cline_dir` writes
the record only `if not global_state.exists()`.  The record it keeps differs
from the one the second construction should have written.  The `ralph` copy,
run on the same two constructions, does leave the second model id, as the
claim (and `test_overwrites_global_state_on_reinit`) requires. -/
theorem gh_setup_preserves_stale_model_bug :
    (fsRead
        ((GhScripts.constructRunner
            ((GhScripts.constructRunner [] "/c" "model-v1" none none
                (some "sk")).2)
            "/c" "model-v2" none none (some "sk")).2)
        "/c/data/globalState.json" =
      some (GhScripts.globalStateJson "model-v1" "model-v1")) ∧
    GhScripts.globalStateJson "model-v1" "model-v1" ≠
      GhScripts.globalStateJson "model-v2" "model-v2" ∧
    (fsRead
        ((Ralph.constructRunner
            ((Ralph.constructRunner [] "/c" "model-v1" none none
                (some "sk")).2)
            "/c" "model-v2" none none (some "sk")).2)
        "/c/data/globalState.json" =
      some (Ralph.globalStateJson "model-v2" "model-v2")) := by
  refine ⟨rfl, ?_, rfl⟩
  simp [GhScripts.globalStateJson]

/-- C6: evaluation at the failing input.  With a distinct plan model
(`plan_model ≠ model` after construction), the `ralph` copy's command line
contains the planning-mode flag `-p`, but the `.github/scripts` copy's
command line never does (and it passes `--model`, which its own test suite
asserts must be absent). -/
theorem gh_run_omits_plan_flag_bug :
    (Ralph.mkRunner "/c" "deepseek/deepseek-v3"
        (some "anthropic/claude-haiku-4.5")).plan_model ≠
      (Ralph.mkRunner "/c" "deepseek/deepseek-v3"
        (some "anthropic/claude-haiku-4.5")).model ∧
    "-p" ∈ Ralph.buildCmd
        (Ralph.mkRunner "/c" "deepseek/deepseek-v3"
          (some "anthropic/claude-haiku-4.5")) "fix the bug" 600 none ∧
    "-p" ∉ GhScripts.buildCmd
        (GhScripts.mkRunner "/c" "deepseek/deepseek-v3"
          (some "anthropic/claude-haiku-4.5")) "fix the bug" 600 none ∧
    "--model" ∈ GhScripts.buildCmd
        (GhScripts.mkRunner "/c" "deepseek/deepseek-v3"
          (some "anthropic/claude-haiku-4.5")) "fix the bug" 600 none := by
  refine ⟨by decide, ?_, by decide, by decide⟩
  decide

theorem findSome_eq_some_exists {α β : Type} (f : α → Option β) :
    ∀ (l : List α) (b : β), l.findSome? f = some b → ∃ a, a ∈ l ∧ f a = some b := by
  intro l
  induction l with
  | nil => intro b h; simp [List.findSome?] at h
  | cons a as ih =>
    intro b h
    rw [List.findSome?] at h
    cases hfa : f a with
    | some c =>
      rw [hfa] at h
      exact ⟨a, List.mem_cons_self a as, hfa.trans h⟩
    | none =>
      rw [hfa] at h
      obtain ⟨x, hx, hfx⟩ := ih b h
      exact ⟨x, List.mem_cons_of_mem a hx, hfx⟩

theorem findSome_isSome_of_mem {α β : Type} (f : α → Option β) :
    ∀ (l : List α) (a : α), a ∈ l → (f a).isSome = true →
      (l.findSome? f).isSome = true := by
  intro l
  induction l with
  | nil => intro a ha; simp at ha
  | cons x xs ih =>
    intro a ha hsome
    rw [List.findSome?]
    cases hfx : f x with
    | some c => rfl
    | none =>
      rcases List.mem_cons.mp ha with h | h
      · subst h; rw [hfx] at hsome; simp at hsome
      · exact ih a h hsome

/-- If a stuck pattern matches the line (case-insensitively), the reader scan
reports some pattern, it is one of the fixed patterns, and it matches. -/
theorem checkStuckLine_spec (line : String)
    (h : ∃ p, p ∈ Ralph.stuckPatterns ∧
        pyIn (pyLower p) (pyLower line) = true) :
    ∃ pattern, Ralph.checkStuckLine line = some pattern ∧
      pattern ∈ Ralph.stuckPatterns ∧
      pyIn (pyLower pattern) (pyLower line) = true := by
  obtain ⟨p, hp, hmatch⟩ := h
  have hsome : (Ralph.checkStuckLine line).isSome = true := by
    unfold Ralph.checkStuckLine
    apply findSome_isSome_of_mem _ _ p hp
    simp [hmatch]
  obtain ⟨pattern, hpat⟩ := Option.isSome_iff_exists.mp hsome
  refine ⟨pattern, hpat, ?_⟩
  obtain ⟨q, hq, hfq⟩ := findSome_eq_some_exists _ _ _ hpat
  by_cases hc : pyIn (pyLower q) (pyLower line) = true
  · rw [if_pos hc] at hfq
    cases hfq
    exact ⟨hq, hc⟩
  · rw [if_neg hc] at hfq
    cases hfq

/-- The reader consumes clean lines, appending them to the buffer. -/
theorem readerRun_skips_clean_lines (rest : List String) :
    ∀ pre : List String,
      (∀ l, l ∈ pre → Ralph.checkStuckLine (pyRstripNl l) = none) →
      Ralph.readerRun (pre ++ rest) =
        ((pre.map pyRstripNl) ++ (Ralph.readerRun rest).1,
          (Ralph.readerRun rest).2) := by
  intro pre
  induction pre with
  | nil => intro _; simp
  | cons l ls ih =>
    intro hclean
    have hl := hclean l (List.mem_cons_self l ls)
    have ihs := ih (fun x hx => hclean x (List.mem_cons_of_mem l hx))
    simp only [List.cons_append, Ralph.readerRun, hl, List.map_cons,
      List.append_eq, ihs]

/-- C3: For every subprocess output line containing one of the fixed stuck
patterns (case-insensitively), the reader records the first matching pattern
with the offending line and stops reading (the buffer ends at that line and
later lines are not consumed), the watchdog — process still alive and before
the deadline — decides to kill, the kill is followed by a wait, and the
raised error is the Stuck-category `ClineError` (exit code -1, the captured
buffers) whose message contains the triggering line. -/
theorem stuck_pattern_kills_and_raises (pre post : List String)
    (rawLine : String) (now deadline : Nat)
    (hpre : ∀ l, l ∈ pre → Ralph.checkStuckLine (pyRstripNl l) = none)
    (hstuck : ∃ p, p ∈ Ralph.stuckPatterns ∧
        pyIn (pyLower p) (pyLower (pyRstripNl rawLine)) = true)
    (hnow : now < deadline) :
    ∃ pattern,
      pattern ∈ Ralph.stuckPatterns ∧
      Ralph.checkStuckLine (pyRstripNl rawLine) = some pattern ∧
      Ralph.readerRun (pre ++ rawLine :: post) =
        (pre.map pyRstripNl ++ [pyRstripNl rawLine],
          some (Ralph.stuckReasonMsg pattern (pyRstripNl rawLine))) ∧
      Ralph.watchdogStep false now deadline
          (some (Ralph.stuckReasonMsg pattern (pyRstripNl rawLine))) =
        Ralph.WatchdogAction.killStuck
          (Ralph.stuckReasonMsg pattern (pyRstripNl rawLine)) ∧
      (∀ outs errs,
        Ralph.onStuck (Ralph.stuckReasonMsg pattern (pyRstripNl rawLine))
            outs errs =
          ([Ralph.ProcEffect.kill, Ralph.ProcEffect.wait],
           { message := "Cline appears stuck: Detected stuck pattern: \x27" ++
               pattern ++ "\x27 in: " ++ pyRstripNl rawLine,
             stdout := joinLines outs,
             stderr := joinLines errs,
             exit_code := -1 })) := by
  obtain ⟨pattern, hcheck, hmem, _⟩ :=
    checkStuckLine_spec (pyRstripNl rawLine) hstuck
  refine ⟨pattern, hmem, hcheck, ?_, ?_, ?_⟩
  · rw [readerRun_skips_clean_lines (rawLine :: post) pre hpre]
    simp only [Ralph.readerRun, hcheck]
  · unfold Ralph.watchdogStep
    rw [if_neg (by simp), if_neg (by omega)]
  · intro outs errs
    unfold Ralph.onStuck Ralph.stuckReasonMsg
    simp only [← String.append_assoc]
    rfl

/-- Witness for C3: a clean line, then a line matching `"Press Enter"`, then
an unread line; poll 0 with deadline 630. -/
theorem stuck_pattern_kills_and_raises_witness :
    ∃ pattern,
      pattern ∈ Ralph.stuckPatterns ∧
      Ralph.checkStuckLine (pyRstripNl "Press Enter to continue\n") =
        some pattern ∧
      Ralph.readerRun
          (["Task started"] ++ "Press Enter to continue\n" :: ["unread"]) =
        (["Task started"].map pyRstripNl ++
            [pyRstripNl "Press Enter to continue\n"],
          some (Ralph.stuckReasonMsg pattern
            (pyRstripNl "Press Enter to continue\n"))) ∧
      Ralph.watchdogStep false 0 630
          (some (Ralph.stuckReasonMsg pattern
            (pyRstripNl "Press Enter to continue\n"))) =
        Ralph.WatchdogAction.killStuck
          (Ralph.stuckReasonMsg pattern
            (pyRstripNl "Press Enter to continue\n")) ∧
      (∀ outs errs,
        Ralph.onStuck
            (Ralph.stuckReasonMsg pattern
              (pyRstripNl "Press Enter to continue\n")) outs errs =
          ([Ralph.ProcEffect.kill, Ralph.ProcEffect.wait],
           { message := "Cline appears stuck: Detected stuck pattern: \x27" ++
               pattern ++ "\x27 in: " ++
               pyRstripNl "Press Enter to continue\n",
             stdout := joinLines outs,
             stderr := joinLines errs,
             exit_code := -1 })) :=
  stuck_pattern_kills_and_raises ["Task started"] ["unread"]
    "Press Enter to continue\n" 0 630
    (by decide) (by decide) (by decide)

theorem watchdogLoop_timeout_reached (procExited : Nat → Bool)
    (stuckReason : Nat → Option String) (deadline : Nat) :
    ∀ (fuel t : Nat), t ≤ deadline → deadline - t < fuel →
      (∀ u, t ≤ u → u ≤ deadline → procExited u = false) →
      (∀ u, t ≤ u → u < deadline → stuckReason u = none) →
      Ralph.watchdogLoop procExited stuckReason deadline t fuel =
        some (Ralph.LoopExit.timeout deadline) := by
  intro fuel
  induction fuel with
  | zero => intro t ht hf _ _; omega
  | succ n ih =>
    intro t ht hf halive hstuck
    have hpe : procExited t = false := halive t le_rfl ht
    by_cases htd : deadline ≤ t
    · have hteq : t = deadline := le_antisymm ht htd
      subst hteq
      simp [Ralph.watchdogLoop, Ralph.watchdogStep, hpe]
    · have hlt : t < deadline := by omega
      have hsr : stuckReason t = none := hstuck t le_rfl hlt
      have hstep : Ralph.watchdogStep (procExited t) t deadline (stuckReason t) =
          Ralph.WatchdogAction.sleepPoll := by
        unfold Ralph.watchdogStep
        rw [hpe, hsr]
        simp only [Bool.false_eq_true, if_false]
        rw [if_neg (by omega)]
      rw [Ralph.watchdogLoop, hstep]
      exact ih (t + 1) (by omega) (by omega)
        (fun u hu1 hu2 => halive u (by omega) hu2)
        (fun u hu1 hu2 => hstuck u (by omega) hu2)

/-- C4: For every invocation with timeout `T` whose subprocess is still
alive at every poll up to the deadline `T + 30` (and no stuck pattern was
flagged), the watchdog loop, polling once per second from time 0, stops at
the deadline with the timeout outcome; the reaction is kill then wait, and
the raised error is the Timeout-category `ClineError` with exit code -1
carrying the stdout/stderr captured up to the kill. -/
theorem timeout_kills_and_raises (timeout : Nat) (procExited : Nat → Bool)
    (stuckReason : Nat → Option String) (outs errs : List String)
    (halive : ∀ u, u ≤ timeout + 30 → procExited u = false)
    (hstuck : ∀ u, u < timeout + 30 → stuckReason u = none) :
    Ralph.watchdogLoop procExited stuckReason (timeout + 30) 0
        (timeout + 31) =
      some (Ralph.LoopExit.timeout (timeout + 30)) ∧
    Ralph.onTimeout timeout outs errs =
      ([Ralph.ProcEffect.kill, Ralph.ProcEffect.wait],
       { message := "Cline timed out after " ++ toString timeout ++ " seconds",
         stdout := joinLines outs,
         stderr := joinLines errs,
         exit_code := -1 }) :=
  ⟨watchdogLoop_timeout_reached procExited stuckReason (timeout + 30)
      (timeout + 31) 0 (Nat.zero_le _) (by omega)
      (fun u _ hu2 => halive u hu2) (fun u _ hu2 => hstuck u hu2),
   rfl⟩

/-- Witness for C4: timeout 1, a process that never exits, no stuck flag. -/
theorem timeout_kills_and_raises_witness :
    Ralph.watchdogLoop (fun _ => false) (fun _ => none) (1 + 30) 0 (1 + 31) =
      some (Ralph.LoopExit.timeout (1 + 30)) ∧
    Ralph.onTimeout 1 ["partial out"] ["partial err"] =
      ([Ralph.ProcEffect.kill, Ralph.ProcEffect.wait],
       { message := "Cline timed out after " ++ toString 1 ++ " seconds",
         stdout := joinLines ["partial out"],
         stderr := joinLines ["partial err"],
         exit_code := -1 }) :=
  timeout_kills_and_raises 1 (fun _ => false) (fun _ => none)
    ["partial out"] ["partial err"] (fun _ _ => rfl) (fun _ _ => rfl)

theorem branchLoop_free (remote : String → Bool) (name : String) (m : Nat)
    (unique : String) (version : Nat) (h : remote unique = false) :
    GitOps.branchLoop remote name (m + 1) unique version = (unique, version) := by
  simp [GitOps.branchLoop, h]

theorem branchLoop_hit (remote : String → Bool) (name : String) (m : Nat)
    (unique : String) (version : Nat) (h : remote unique = true) :
    GitOps.branchLoop remote name (m + 1) unique version =
      GitOps.branchLoop remote name m (GitOps.versionedName name version)
        (version + 1) := by
  simp [GitOps.branchLoop, h]

theorem branchLoop_exhausts (remote : String → Bool) (name : String) :
    ∀ (remaining version : Nat) (unique : String),
      version + remaining = 21 → 2 ≤ version →
      (version ≤ 20 → remote unique = true) →
      (∀ v, version ≤ v → v ≤ 19 → remote (GitOps.versionedName name v) = true) →
      (GitOps.branchLoop remote name remaining unique version).2 = 21 := by
  intro remaining
  induction remaining with
  | zero =>
    intro version unique hsum _ _ _
    have : version = 21 := by omega
    subst this
    rfl
  | succ n ih =>
    intro version unique hsum h2 hu hv
    have hver : version ≤ 20 := by omega
    have hru : remote unique = true := hu hver
    rw [branchLoop_hit remote name n unique version hru]
    exact ih (version + 1) (GitOps.versionedName name version) (by omega)
      (by omega)
      (fun h21 => hv version le_rfl (by omega))
      (fun v hv1 hv2 => hv v (by omega) hv2)

/-- C7 (amended): `create_branch` probes `X`, then `X-v2`, `X-v3`, …; when
`X` exists remotely but `X-v2` does not, it creates and returns `X-v2`; and
when `X` and all of `X-v2` … `X-v19` exist remotely (19 failed probes — the
candidate `X-v20` is generated but never probed), it raises a `GitError`
rather than looping forever. -/
theorem create_branch_collision_resolution (remote : String → Bool)
    (name : String) (hname : name ≠ "")
    (hstrip : PyStr.pyStrip name = name) :
    GitOps.versionedName name 2 = name ++ "-v2" ∧
    (remote name = false →
      GitOps.create_branch remote name = Except.ok name) ∧
    (remote name = true → remote (GitOps.versionedName name 2) = false →
      GitOps.create_branch remote name =
        Except.ok (GitOps.versionedName name 2)) ∧
    (remote name = true →
      (∀ v, 2 ≤ v → v ≤ 19 → remote (GitOps.versionedName name v) = true) →
      GitOps.create_branch remote name =
        Except.error (GitOps.CreateBranchError.gitError
          { message :=
              "Could not find unique branch name after 20 attempts. " ++
              "Too many existing branches for issue. Consider cleaning up old branches." })) := by
  have hcond : ¬(name = "" ∨ PyStr.pyStrip name = "") := by
    rw [hstrip]
    simp [hname]
  refine ⟨?_, ?_, ?_, ?_⟩
  · unfold GitOps.versionedName
    rw [String.append_assoc]
    rfl
  · intro hfree
    have hloop := branchLoop_free remote name 18 name 2 hfree
    unfold GitOps.create_branch
    rw [if_neg hcond]
    simp [hstrip, hloop]
  · intro hhit hfree
    have h1 := branchLoop_hit remote name 18 name 2 hhit
    have h2 := branchLoop_free remote name 17 (GitOps.versionedName name 2) 3 hfree
    unfold GitOps.create_branch
    rw [if_neg hcond]
    simp [hstrip, h1, h2]
  · intro hhit hall
    have h21 := branchLoop_exhausts remote name 19 2 name rfl (by omega)
      (fun _ => hhit) (fun v hv1 hv2 => hall v hv1 hv2)
    unfold GitOps.create_branch
    rw [if_neg hcond]
    simp [hstrip, h21]

/-- Witness for C7 (amended): a remote where only `b` exists yields `b-v2`;
a remote where every name exists exhausts the loop and raises. -/
theorem create_branch_collision_resolution_witness :
    GitOps.create_branch (fun s => s == "b") "b" =
      Except.ok (GitOps.versionedName "b" 2) ∧
    GitOps.create_branch (fun _ => true) "b" =
      Except.error (GitOps.CreateBranchError.gitError
        { message :=
            "Could not find unique branch name after 20 attempts. " ++
            "Too many existing branches for issue. Consider cleaning up old branches." }) :=
  ⟨(create_branch_collision_resolution (fun s => s == "b") "b" (by decide)
      (by decide)).2.2.1 (by decide) (by decide),
   (create_branch_collision_resolution (fun _ => true) "b" (by decide)
      (by decide)).2.2.2 rfl (fun _ _ _ => rfl)⟩

/-- C7 counterexample to the claim as stated: with `b`, `b-v2`, …, `b-v19`
all existing remotely (19 candidates probed, every probe failing) but
`b-v20` free, `create_branch` raises `GitError` even though fewer than 20
probes failed and the 20th candidate `b-v20` would have been available: the
exhaustion happens after 19 failed probes, not 20. -/
theorem create_branch_nineteen_probes_counterexample :
    (GitOps.create_branch
        (fun s => s ∈ ["b", "b-v2", "b-v3", "b-v4", "b-v5", "b-v6", "b-v7",
          "b-v8", "b-v9", "b-v10", "b-v11", "b-v12", "b-v13", "b-v14",
          "b-v15", "b-v16", "b-v17", "b-v18", "b-v19"]) "b" =
      Except.error (GitOps.CreateBranchError.gitError
        { message :=
            "Could not find unique branch name after 20 attempts. " ++
            "Too many existing branches for issue. Consider cleaning up old branches." })) ∧
    ("b-v20" ∉ ["b", "b-v2", "b-v3", "b-v4", "b-v5", "b-v6", "b-v7",
        "b-v8", "b-v9", "b-v10", "b-v11", "b-v12", "b-v13", "b-v14",
        "b-v15", "b-v16", "b-v17", "b-v18", "b-v19"]) ∧
    GitOps.versionedName "b" 20 = "b-v20" := by
  refine ⟨by rfl, by decide, by decide⟩

theorem find_renamed (p : Screenshot.FileEntry) (expected : String) :
    ∀ dir : List Screenshot.FileEntry,
      p ∈ dir →
      (dir.map Screenshot.FileEntry.name).Nodup →
      (∀ f, f ∈ dir → f.name ≠ expected) →
      (Screenshot.renameEntry dir p.name expected).find?
          (fun f => f.name = expected) =
        some { p with name := expected } := by
  intro dir
  induction dir with
  | nil => intro hmem; simp at hmem
  | cons q rest ih =>
    intro hmem hnodup habs
    simp only [List.map_cons, List.nodup_cons] at hnodup
    rcases List.mem_cons.mp hmem with hq | hq
    · subst hq
      unfold Screenshot.renameEntry
      simp only [List.map_cons]
      rw [List.find?_cons_of_pos _ (by simp)]
      simp
    · have hqname : q.name ≠ p.name := by
        intro he
        exact hnodup.1 (he ▸ List.mem_map_of_mem Screenshot.FileEntry.name hq)
      unfold Screenshot.renameEntry
      simp only [List.map_cons, if_neg hqname]
      rw [List.find?_cons_of_neg]
      · exact ih hq hnodup.2 (fun f hf => habs f (List.mem_cons_of_mem q hf))
      · simp [habs q (List.mem_cons_self q rest)]

/-- C8: the validation/recovery tail of `take_screenshot`, after a
successful agent invocation:

* expected path absent but exactly one PNG in the directory → that PNG is
  renamed to the expected path, and the expected path is returned provided
  the file is non-empty (an empty file yields `None` by the third clause);
* expected path absent and no PNG at all → `None`;
* the file at the expected path empty (0 bytes) → `None`. -/
theorem screenshot_recovery (dir : List Screenshot.FileEntry)
    (expected : String) :
    (∀ p, dir.all (fun f => f.name ≠ expected) = true →
      dir.filter Screenshot.isPng = [p] →
      (dir.map Screenshot.FileEntry.name).Nodup →
      Screenshot.take_screenshot dir expected =
        ((if p.size = 0 then none else some expected),
          Screenshot.renameEntry dir p.name expected) ∧
      { p with name := expected } ∈
        Screenshot.renameEntry dir p.name expected) ∧
    (dir.all (fun f => f.name ≠ expected) = true →
      dir.filter Screenshot.isPng = [] →
      Screenshot.take_screenshot dir expected = (none, dir)) ∧
    (∀ f, dir.find? (fun g => g.name = expected) = some f → f.size = 0 →
      (Screenshot.take_screenshot dir expected).1 = none) := by
  refine ⟨?_, ?_, ?_⟩
  · intro p hall hone hnodup
    have habs : ∀ f, f ∈ dir → f.name ≠ expected := by
      intro f hf
      have := List.all_eq_true.mp hall f hf
      simpa using this
    have hpdir : p ∈ dir := by
      have : p ∈ dir.filter Screenshot.isPng := by
        rw [hone]; exact List.mem_singleton_self p
      exact List.mem_of_mem_filter this
    have hfind := find_renamed p expected dir hpdir hnodup habs
    unfold Screenshot.take_screenshot
    rw [if_pos hall]
    unfold Screenshot.sortByMtimeDesc
    rw [hone]
    constructor
    · simp only [List.mergeSort]
      unfold Screenshot.checkSize
      rw [hfind]
    · exact List.mem_of_find?_eq_some hfind
  · intro hall hnone
    unfold Screenshot.take_screenshot
    rw [if_pos hall]
    unfold Screenshot.sortByMtimeDesc
    rw [hnone]
    simp only [List.mergeSort]
  · intro f hfind hsize
    have hfmem := List.mem_of_find?_eq_some hfind
    have hfname : f.name = expected := by
      have := List.find?_some hfind
      simpa using this
    have hnall : ¬ dir.all (fun g => g.name ≠ expected) = true := by
      intro hall
      have h2 := List.all_eq_true.mp hall f hfmem
      simp only [decide_eq_true_eq] at h2
      exact h2 hfname
    unfold Screenshot.take_screenshot
    rw [if_neg hnall]
    unfold Screenshot.checkSize
    rw [hfind]
    simp [hsize]

/-- Witness for C8: a lone `shot.png` (5 bytes) is renamed to `before.png`
and returned; an empty directory yields `None`; an empty (0-byte) file at
the expected path yields `None`. -/
theorem screenshot_recovery_witness :
    (Screenshot.take_screenshot
        [{ name := "shot.png", size := 5, mtime := 10 }] "before.png" =
        ((if (5 : Nat) = 0 then none else some "before.png"),
          Screenshot.renameEntry
            [{ name := "shot.png", size := 5, mtime := 10 }] "shot.png"
            "before.png") ∧
      ({ name := "before.png", size := 5, mtime := 10 } :
          Screenshot.FileEntry) ∈
        Screenshot.renameEntry
          [{ name := "shot.png", size := 5, mtime := 10 }] "shot.png"
          "before.png") ∧
    Screenshot.take_screenshot [] "before.png" = (none, []) ∧
    (Screenshot.take_screenshot
        [{ name := "before.png", size := 0, mtime := 3 }] "before.png").1 =
      none :=
  ⟨(screenshot_recovery [{ name := "shot.png", size := 5, mtime := 10 }]
        "before.png").1
      ({ name := "shot.png", size := 5, mtime := 10 } : Screenshot.FileEntry)
      (by decide) (by decide) (by decide),
   (screenshot_recovery [] "before.png").2.1 (by decide) (by decide),
   (screenshot_recovery [{ name := "before.png", size := 0, mtime := 3 }]
        "before.png").2.2
      { name := "before.png", size := 0, mtime := 3 } (by decide) rfl⟩

theorem findSome_eq_none_of_all {α β : Type} (f : α → Option β) :
    ∀ l : List α, (∀ a, a ∈ l → f a = none) → l.findSome? f = none := by
  intro l
  induction l with
  | nil => intro _; rfl
  | cons a as ih =>
    intro h
    rw [List.findSome?]
    rw [h a (List.mem_cons_self a as)]
    exact ih (fun x hx => h x (List.mem_cons_of_mem a hx))

theorem lineVerdictCheck_cases (l v : String)
    (h : SelfReview.lineVerdictCheck l = some v) :
    v = "NEEDS CHANGES" ∨ v = "LGTM" := by
  unfold SelfReview.lineVerdictCheck at h
  dsimp only at h
  split_ifs at h with h1 h2 h3
  · exact Or.inl (Option.some.inj h).symm
  · exact Or.inr (Option.some.inj h).symm

theorem lineVerdictCheck_none_of_no_verdict_colon (l : String)
    (h : ¬(pyIn "verdict" (pyLower (pyStrip l)) = true ∧
        pyIn ":" (pyLower (pyStrip l)) = true)) :
    SelfReview.lineVerdictCheck l = none := by
  unfold SelfReview.lineVerdictCheck
  rw [if_neg h]

/-- C10: `parse_verdict` is total and always returns exactly `"LGTM"` or
`"NEEDS CHANGES"`; and when no line of the markdown-stripped text has both
`"verdict"` and a colon (after stripping and lowering) and the looser
full-text scan also finds nothing, it defaults to `"LGTM"`. -/
theorem parse_verdict_total_and_default (s : String) :
    (SelfReview.parse_verdict s = "LGTM" ∨
      SelfReview.parse_verdict s = "NEEDS CHANGES") ∧
    ((∀ line, line ∈ SelfReview.splitlines (SelfReview.stripMarkdown s) →
        ¬(pyIn "verdict" (pyLower (pyStrip line)) = true ∧
          pyIn ":" (pyLower (pyStrip line)) = true)) →
      SelfReview.fulltextCheck
          ((pyLower (SelfReview.stripMarkdown s)).toList) = false →
      SelfReview.parse_verdict s = "LGTM") := by
  constructor
  · cases hfind : (SelfReview.splitlines (SelfReview.stripMarkdown s)).findSome?
        SelfReview.lineVerdictCheck with
    | some v =>
      obtain ⟨l, _, hl⟩ := findSome_eq_some_exists _ _ _ hfind
      have hv := lineVerdictCheck_cases l v hl
      have hpv : SelfReview.parse_verdict s = v := by
        unfold SelfReview.parse_verdict
        dsimp only
        rw [hfind]
      rw [hpv]
      exact Or.symm hv
    | none =>
      unfold SelfReview.parse_verdict
      dsimp only
      rw [hfind]
      cases hful : SelfReview.fulltextCheck
          ((pyLower (SelfReview.stripMarkdown s)).toList) with
      | true => right; rfl
      | false => left; rfl
  · intro hlines hful
    have hfind : (SelfReview.splitlines (SelfReview.stripMarkdown s)).findSome?
        SelfReview.lineVerdictCheck = none :=
      findSome_eq_none_of_all _ _
        (fun l hl => lineVerdictCheck_none_of_no_verdict_colon l (hlines l hl))
    unfold SelfReview.parse_verdict
    dsimp only
    rw [hfind, hful]
    rfl

/-- Witness for C10 on the verdict-free review text `"hello world"`. -/
theorem parse_verdict_total_and_default_witness :
    (SelfReview.parse_verdict "hello world" = "LGTM" ∨
      SelfReview.parse_verdict "hello world" = "NEEDS CHANGES") ∧
    SelfReview.parse_verdict "hello world" = "LGTM" :=
  ⟨(parse_verdict_total_and_default "hello world").1,
   (parse_verdict_total_and_default "hello world").2
     (by decide) (by decide)⟩

end Theorems
